import Mathlib

/-!
Verification of the classification, deduplication, ranking and retrieval core of
the `ai-news-bot` repository, as a shallow embedding in Lean 4.

Sources embedded:
- `ai_news_bot/utils/content_analyzer.py` (ContentAnalyzer: lexicon tables,
  `analyze_article`, `_is_investment_news`, `_is_research_breakthrough`,
  `_calculate_relevance_score`, `_identify_topics`, `_extract_keywords`,
  `calculate_similarity`, `is_duplicate`)
- `ai_news_bot/utils/search.py` (ArticleFilter: `remove_duplicates`, `rank_by_quality`)
- `ai_news_bot/database.py` (DatabaseManager: `save_article`, `search_articles`)

Modelling conventions:
- Python `float` is modelled by `ℚ`.  All constants appearing in the code are
  exact decimals, so the arithmetic (sums, divisions, comparisons) is the same;
  only IEEE rounding of inexact divisions is idealized.
- Python strings are modelled by `String`; `str.lower` is modelled
  character-wise by `Char.toLower` (exact on the ASCII text the code handles).
- A Python `set` literal of string constants is modelled by the corresponding
  deduplicated list; counting/summation over it is order-independent.
- Stateful SQLite operations are modelled by explicit state passing over a
  `DbState`; the SQL statements' semantics (filter, ORDER BY, LIMIT/OFFSET,
  INSERT OR REPLACE on the UNIQUE url column) are written out as list
  operations following SQLite's documented behaviour.
-/

/-- Whether the character list `needle` occurs as a contiguous segment of
`hay`: the Python substring test `needle in hay`. -/
def subMatch (needle : List Char) : List Char → Bool
  | [] => needle.isEmpty
  | c :: t => needle.isPrefixOf (c :: t) || subMatch needle t

/-- Lower-cased character list of a string: Python `s.lower()` (character-wise,
exact on ASCII). -/
def lc (s : String) : List Char := s.toList.map Char.toLower

/-- The Python test `kw in text_lower` for an (already lower-case) keyword
constant against a lower-cased text. -/
def containsKw (text : List Char) (kw : String) : Bool := subMatch kw.toList text

/-- The lower-cased combined text `f"{title} {content}".lower()` that
`ContentAnalyzer.analyze_article` computes. -/
def lcText (title content : String) : List Char := lc (title ++ " " ++ content)

/-- Number of whitespace-separated words: Python `text.split()` length.
The Boolean argument records whether we are inside a word. -/
def wordCountAux : List Char → Bool → Nat
  | [], _ => 0
  | c :: t, inWord =>
    if c.isWhitespace then wordCountAux t false
    else (if inWord then 0 else 1) + wordCountAux t true

/-- Number of whitespace-separated words of a character list. -/
def wordCount (l : List Char) : Nat := wordCountAux l false

/-- Keyword list of the category "Large Language Models" (weight 1.5). -/
def llmKeywords : List String :=
  ["llm", "large language model", "gpt", "bert", "transformer",
   "chatgpt", "claude", "gemini", "palm", "bard", "llama",
   "language model", "generative ai", "prompt engineering",
   "fine-tuning", "rlhf", "instruction tuning", "context window",
   "token", "embedding", "attention mechanism", "foundation model"]

/-- Keyword list of the category "Computer Vision" (weight 1.3). -/
def cvKeywords : List String :=
  ["computer vision", "image recognition", "object detection",
   "image segmentation", "cv", "visual", "cnn", "convolutional",
   "yolo", "rcnn", "vit", "vision transformer", "image generation",
   "stable diffusion", "dall-e", "midjourney", "imagen",
   "visual understanding", "image classification", "face recognition",
   "scene understanding", "video analysis"]

/-- Keyword list of the category "Natural Language Processing" (weight 1.2). -/
def nlpKeywords : List String :=
  ["nlp", "natural language processing", "text analysis",
   "sentiment analysis", "named entity", "ner", "tokenization",
   "language understanding", "text generation", "machine translation",
   "question answering", "text classification", "semantic",
   "syntactic", "parsing", "pos tagging", "word embeddings"]

/-- Keyword list of the category "Machine Learning" (weight 1.0). -/
def mlKeywords : List String :=
  ["machine learning", "ml", "neural network", "deep learning",
   "supervised learning", "unsupervised learning", "reinforcement learning",
   "training", "inference", "model", "algorithm", "gradient descent",
   "backpropagation", "optimization", "regularization", "overfitting",
   "cross-validation", "hyperparameter", "feature engineering"]

/-- Keyword list of the category "AI Ethics & Safety" (weight 1.4). -/
def ethicsKeywords : List String :=
  ["ai ethics", "ai safety", "alignment", "bias", "fairness",
   "explainable ai", "interpretability", "transparency",
   "responsible ai", "ai governance", "ai regulation",
   "privacy", "security", "adversarial", "robustness",
   "hallucination", "ai risks", "ai benefits"]

/-- Keyword list of the category "Robotics & Autonomous Systems" (weight 1.3). -/
def roboticsKeywords : List String :=
  ["robotics", "autonomous", "self-driving", "robot",
   "automation", "embodied ai", "control systems",
   "sensor fusion", "slam", "path planning", "manipulation",
   "humanoid", "drone", "autonomous vehicle"]

/-- Keyword list of the category "AI Research" (weight 1.1). -/
def researchCatKeywords : List String :=
  ["arxiv", "research paper", "study", "experiment",
   "benchmark", "dataset", "sota", "state-of-the-art",
   "evaluation", "ablation", "methodology", "architecture",
   "novel approach", "breakthrough", "innovation"]

/-- Keyword list of the category "AI Applications" (weight 0.9). -/
def applicationsKeywords : List String :=
  ["ai application", "use case", "deployment", "production",
   "enterprise ai", "ai integration", "ai adoption",
   "real-world", "practical", "implementation", "solution"]

/-- Keyword list of the category "AI Companies & Business" (weight 1.0). -/
def companiesKeywords : List String :=
  ["openai", "google ai", "deepmind", "anthropic", "meta ai",
   "microsoft ai", "amazon ai", "nvidia", "hugging face",
   "startup", "funding", "investment", "acquisition",
   "partnership", "product launch", "announcement"]

/-- Keyword list of the category "Multimodal AI" (weight 1.4). -/
def multimodalKeywords : List String :=
  ["multimodal", "vision-language", "text-to-image",
   "image-to-text", "video understanding", "audio-visual",
   "cross-modal", "unified model", "multi-task"]

/-- The `AI_TOPIC_KEYWORDS` table: category name, keyword list, weight
(dict insertion order as in the source). -/
def AI_TOPIC_KEYWORDS : List (String × List String × ℚ) :=
  [("Large Language Models", llmKeywords, 1.5),
   ("Computer Vision", cvKeywords, 1.3),
   ("Natural Language Processing", nlpKeywords, 1.2),
   ("Machine Learning", mlKeywords, 1.0),
   ("AI Ethics & Safety", ethicsKeywords, 1.4),
   ("Robotics & Autonomous Systems", roboticsKeywords, 1.3),
   ("AI Research", researchCatKeywords, 1.1),
   ("AI Applications", applicationsKeywords, 0.9),
   ("AI Companies & Business", companiesKeywords, 1.0),
   ("Multimodal AI", multimodalKeywords, 1.4)]

/-- The `HIGH_VALUE_KEYWORDS` set. -/
def HIGH_VALUE_KEYWORDS : List String :=
  (["breakthrough", "revolutionary", "novel", "state-of-the-art", "sota",
    "benchmark", "outperform", "significant", "advancement", "innovation",
    "introduces", "proposes", "demonstrates", "achieves", "improves"]).dedup

/-- The `RESEARCH_KEYWORDS` set. -/
def RESEARCH_KEYWORDS : List String :=
  (["research", "study", "paper", "arxiv", "published", "journal",
    "conference", "proceedings", "experiment", "findings", "results",
    "methodology", "dataset", "evaluation", "analysis", "empirical",
    "theoretical", "algorithm", "framework", "approach", "method",
    "peer-reviewed", "citation", "authors", "abstract", "conclusion",
    "hypothesis", "validate", "reproduce", "ablation", "baseline",
    "neurips", "icml", "iclr", "cvpr", "acl", "emnlp", "aaai", "ijcai"]).dedup

/-- The `BREAKTHROUGH_KEYWORDS` set. -/
def BREAKTHROUGH_KEYWORDS : List String :=
  (["breakthrough", "discovery", "discovered", "invention", "invented",
    "novel", "first-time", "first time", "unprecedented", "revolutionary",
    "groundbreaking", "milestone", "significant advancement", "major advancement",
    "new method", "new approach", "new technique", "new algorithm",
    "outperforms", "state-of-the-art", "sota", "record-breaking",
    "achieves", "demonstrates", "proposes", "introduces", "presents",
    "pioneering", "innovative", "innovation", "cutting-edge",
    "transformative", "game-changing", "paradigm shift"]).dedup

/-- The `INVESTMENT_KEYWORDS` set. -/
def INVESTMENT_KEYWORDS : List String :=
  (["funding", "investment", "invested", "funding round", "series a", "series b",
    "series c", "venture capital", "vc", "raised", "valuation", "investor",
    "acquisition", "acquired", "merger", "bought", "purchase", "deal",
    "partnership", "partners with", "collaboration announcement",
    "ipo", "stock", "market cap", "shareholders", "equity",
    "billion dollar", "million dollar", "$", "raises $", "valued at",
    "seed funding", "angel investor", "startup funding",
    "financial", "revenue", "profit", "earnings", "quarterly",
    "ceo appointed", "executive", "leadership change", "hire",
    "layoff", "workforce reduction", "restructuring"]).dedup

/-- The `PRODUCT_LAUNCH_KEYWORDS` set. -/
def PRODUCT_LAUNCH_KEYWORDS : List String :=
  (["product launch", "launching", "releases", "released", "unveiled",
    "announces", "announcement", "available now", "coming soon",
    "price", "pricing", "subscription", "premium", "pro version",
    "beta", "early access", "sign up", "waitlist"]).dedup

/-- The analyzer's `self.ai_keywords`: the set union of every category's
keyword list (order is irrelevant; only membership and counts are used). -/
def aiKeywords : List String :=
  ((AI_TOPIC_KEYWORDS.map (fun e => e.2.1)).flatten).dedup

/-- Count of keywords from a keyword set that occur in a text
(`sum(1 for kw in kws if kw in text)`). -/
def countKw (kws : List String) (text : List Char) : Nat :=
  (kws.filter (fun k => containsKw text k)).length

/-- Score term 1 of `_calculate_relevance_score`: title keyword matches.
Each matching lexicon keyword adds `min(len(keyword)/2, 5)`; the accumulated
sum is then capped at 30 (`score = min(score, 30)` with nothing else added
before this point). -/
def titleScore (titleL : List Char) : ℚ :=
  min (((aiKeywords.filter (fun k => containsKw titleL k)).map
        (fun k => min ((k.length : ℚ) / 2) 5)).sum) 30

/-- Score term 2 of `_calculate_relevance_score`: content keyword density.
`density = (content_matches / word_count) * 100`; adds `min(density * 3, 30)`
when `word_count > 0`, else nothing. -/
def contentScore (textL : List Char) : ℚ :=
  let m := countKw aiKeywords textL
  let w := wordCount textL
  if 0 < w then min ((m : ℚ) / (w : ℚ) * 100 * 3) 30 else 0

/-- Uncapped accumulator of score term 3: for each category with at least one
match, `matches * category_weight`. -/
def topicRaw (textL : List Char) : ℚ :=
  (AI_TOPIC_KEYWORDS.map (fun e =>
    let m := countKw e.2.1 textL
    if 0 < m then (m : ℚ) * e.2.2 else 0)).sum

/-- Score term 3 of `_calculate_relevance_score`: topic category matches,
capped at 20. -/
def topicScore (textL : List Char) : ℚ := min (topicRaw textL) 20

/-- Score term 4 of `_calculate_relevance_score`: high-value keywords,
`min(high_value_matches * 3, 15)`. -/
def highValueScore (textL : List Char) : ℚ :=
  min ((countKw HIGH_VALUE_KEYWORDS textL : ℚ) * 3) 15

/-- Score term 5 of `_calculate_relevance_score`: flat 5 if any of the core
domain terms appears in the title. -/
def prominenceScore (titleL : List Char) : ℚ :=
  if (["ai", "artificial intelligence", "machine learning", "llm"].any
      (fun k => containsKw titleL k)) then 5 else 0

/-- Score term 6 of `_calculate_relevance_score`: research content boost:
when at least one research keyword is present, `min(research_matches * 2, 10)`
plus a further flat 5 when "arxiv" or "published" occurs. -/
def researchScore (textL : List Char) : ℚ :=
  let m := countKw RESEARCH_KEYWORDS textL
  if 0 < m then
    min ((m : ℚ) * 2) 10 +
      (if containsKw textL "arxiv" || containsKw textL "published" then 5 else 0)
  else 0

/-- Score term 7 of `_calculate_relevance_score`: breakthrough keywords,
`min(breakthrough_matches * 3, 15)` when at least one is present. -/
def breakthroughScore (textL : List Char) : ℚ :=
  let m := countKw BREAKTHROUGH_KEYWORDS textL
  if 0 < m then min ((m : ℚ) * 3) 15 else 0

/-- The pre-gate relevance score `ContentAnalyzer._calculate_relevance_score`:
sum of the seven terms, finally `min(score, 100.0)`. -/
def calculateRelevanceScore (title content : String) : ℚ :=
  let titleL := lc title
  let textL := lcText title content
  min (titleScore titleL + contentScore textL + topicScore textL +
       highValueScore textL + prominenceScore titleL + researchScore textL +
       breakthroughScore textL) 100

/-- The investment/business gate `ContentAnalyzer._is_investment_news`. -/
def isInvestmentNews (title content : String) : Bool :=
  let titleL := lc title
  let textL := lcText title content
  let titleMatches := countKw INVESTMENT_KEYWORDS titleL
  let contentMatches := countKw INVESTMENT_KEYWORDS textL
  let productMatches := countKw PRODUCT_LAUNCH_KEYWORDS textL
  if 2 ≤ titleMatches then true
  else if 5 ≤ contentMatches then true
  else if 2 ≤ contentMatches && 2 ≤ productMatches then true
  else false

/-- The breakthrough gate `ContentAnalyzer._is_research_breakthrough`. -/
def isResearchBreakthrough (textL : List Char) : Bool :=
  let bm := countKw BREAKTHROUGH_KEYWORDS textL
  let rm := countKw RESEARCH_KEYWORDS textL
  if 2 ≤ bm then true
  else if 1 ≤ bm && 3 ≤ rm then true
  else if containsKw textL "arxiv" && 2 ≤ rm then true
  else false

/-- The post-gate relevance score computed by `analyze_article` lines 209-219:
the investment penalty `max(0, score - 50)` (only when flagged as investment
news and not a research breakthrough), followed by the breakthrough boost
`min(100, score + 15)`. -/
def finalScore (title content : String) : ℚ :=
  let inv := isInvestmentNews title content
  let brk := isResearchBreakthrough (lcText title content)
  let s0 := calculateRelevanceScore title content
  let s1 := if inv && !brk then max 0 (s0 - 50) else s0
  if brk then min 100 (s1 + 15) else s1

/-- Topic identification `ContentAnalyzer._identify_topics`: a category is
reported iff at least 2 of its keywords occur in the lower-cased text. -/
def identifyTopics (textL : List Char) : List String :=
  (AI_TOPIC_KEYWORDS.filter (fun e => 2 ≤ countKw e.2.1 textL)).map (fun e => e.1)

/-- Keyword extraction `ContentAnalyzer._extract_keywords`: the set of matched
lexicon/high-value/research/breakthrough keywords, those occurring in the
title first, capped at 20.  (Python iterates a hash set in unspecified order;
this model fixes the enumeration order of the underlying keyword tables, which
preserves membership, the title-first split and the cap.) -/
def extractKeywords (titleL textL : List Char) : List String :=
  let found := ((aiKeywords ++ HIGH_VALUE_KEYWORDS ++ RESEARCH_KEYWORDS ++
                 BREAKTHROUGH_KEYWORDS).dedup).filter (fun k => containsKw textL k)
  let prioritized := found.filter (fun k => containsKw titleL k)
  let regular := found.filter (fun k => !containsKw titleL k)
  (prioritized ++ regular).take 20

/-- Python `round(x, 2)` on a value already in range: rounding to two decimal
places.  (Python rounds ties to even; the tie-breaking rule is irrelevant to
every property proved below, so round-half-up is used.) -/
def round2 (x : ℚ) : ℚ := ((⌊x * 100 + 1 / 2⌋ : ℤ) : ℚ) / 100

/-- Result record of `ContentAnalyzer.analyze_article`. -/
structure AnalysisResult where
  relevance_score : ℚ
  topics : List String
  keywords : List String
  is_ai_related : Bool
  is_research_breakthrough : Bool
  is_investment_news : Bool
  deriving Repr, DecidableEq

/-- The classifier entry point `ContentAnalyzer.analyze_article`. -/
def analyzeArticle (title content : String) : AnalysisResult :=
  let titleL := lc title
  let textL := lcText title content
  let inv := isInvestmentNews title content
  let brk := isResearchBreakthrough textL
  let score := finalScore title content
  let topics := identifyTopics textL
  { relevance_score := round2 score
    topics := topics
    keywords := extractKeywords titleL textL
    is_ai_related := (decide (30 ≤ score) || !topics.isEmpty) && !(inv && !brk)
    is_research_breakthrough := brk
    is_investment_news := inv }

/-- Word character for the regex `\w` (ASCII model: letters, digits,
underscore). -/
def isWordChar (c : Char) : Bool := c.isAlphanum || c == '_'

/-- Maximal runs of word characters: `re.findall(r'\w+', text)`.  The
accumulator holds the current run in reverse. -/
def wordRunsAux : List Char → List Char → List (List Char)
  | [], acc => if acc.isEmpty then [] else [acc.reverse]
  | c :: t, acc =>
    if isWordChar c then wordRunsAux t (c :: acc)
    else if acc.isEmpty then wordRunsAux t []
    else acc.reverse :: wordRunsAux t []

/-- Word tokens of a character list. -/
def wordRuns (l : List Char) : List (List Char) := wordRunsAux l []

/-- The analyzer's stop-word set used by `calculate_similarity`. -/
def stopWords : List (List Char) :=
  (["a", "an", "the", "and", "or", "but", "in", "on", "at", "to", "for",
    "of", "with", "by", "from", "as", "is", "was", "are", "were", "be",
    "been", "being", "have", "has", "had", "do", "does", "did", "will",
    "would", "should", "could", "may", "might", "must", "can"].map
    String.toList).dedup

/-- Token set of a text for similarity: `set(re.findall(r'\w+', text.lower()))`
minus the stop words.  Deduplicated, so the list length is the set size. -/
def simTokens (s : String) : List (List Char) :=
  ((wordRuns (lc s)).dedup).filter (fun w => !stopWords.contains w)

/-- Jaccard title similarity `ContentAnalyzer.calculate_similarity`. -/
def calculateSimilarity (text1 text2 : String) : ℚ :=
  let words1 := simTokens text1
  let words2 := simTokens text2
  if words1.isEmpty || words2.isEmpty then 0
  else
    let inter := words1.filter (fun w => words2.contains w)
    let union := (words1 ++ words2).dedup
    if union.isEmpty then 0 else (inter.length : ℚ) / (union.length : ℚ)

/-- Duplicate test `ContentAnalyzer.is_duplicate`:
`similarity >= threshold`. -/
def isDuplicate (title1 title2 : String) (threshold : ℚ) : Bool :=
  decide (threshold ≤ calculateSimilarity title1 title2)

/-- An article dictionary as consumed by `ArticleFilter` (the fields the code
reads; `processed_at` is optional as in the dictionaries at hand). -/
structure Article where
  url : String
  title : String
  source : String
  relevance_score : ℚ
  processed_at : Option String
  deriving Repr, DecidableEq

/-- Loop body of `ArticleFilter.remove_duplicates`: keep accumulating articles
that are no duplicate of any already-kept article. -/
def dedupGo (threshold : ℚ) (kept : List Article) : List Article → List Article
  | [] => kept
  | x :: xs =>
    if kept.any (fun u => isDuplicate x.title u.title threshold) then
      dedupGo threshold kept xs
    else
      dedupGo threshold (kept ++ [x]) xs

/-- The deduplicator `ArticleFilter.remove_duplicates`: empty input gives
`[]`; otherwise the kept list is seeded with the first article. -/
def removeDuplicates (articles : List Article) (threshold : ℚ) : List Article :=
  match articles with
  | [] => []
  | a :: rest => dedupGo threshold [a] rest

/-- The fixed trusted-source list of `ArticleFilter.rank_by_quality`. -/
def trustedSources : List String := ["ArXiv", "OpenAI", "Google AI", "DeepMind"]

/-- Recency bonus inside `ArticleFilter.rank_by_quality`'s quality score.
The wall clock `datetime.now()` and the timestamp parser
`datetime.fromisoformat` are environment inputs of the Python code and are
passed explicitly: `now` and parsed timestamps are measured in hours (the
code divides the second difference by 3600).  A missing or empty (falsy)
`processed_at` skips the bonus; a parse failure (the caught, discarded
exception) likewise adds nothing. -/
def recencyBonus (parse : String → Option ℚ) (now : ℚ) : Option String → ℚ
  | none => 0
  | some s =>
    if s = "" then 0
    else
      match parse s with
      | none => 0
      | some t => max 0 (20 - (now - t) / 24 * 2)

/-- Quality score of `ArticleFilter.rank_by_quality`: base relevance plus
recency bonus plus a flat 10 for a trusted source. -/
def qualityScore (parse : String → Option ℚ) (now : ℚ) (a : Article) : ℚ :=
  a.relevance_score + recencyBonus parse now a.processed_at +
    (if a.source ∈ trustedSources then 10 else 0)

/-- The ranker `ArticleFilter.rank_by_quality`: Python's stable `sorted` with
`reverse=True` on the quality score, i.e. the unique stable sort that is
descending in the quality score. -/
def rankByQuality (parse : String → Option ℚ) (now : ℚ)
    (articles : List Article) : List Article :=
  List.insertionSort
    (fun a b => qualityScore parse now b ≤ qualityScore parse now a) articles

/-- A row of the `articles` table (the columns `search_articles` selects;
`created_at` is never read back by the embedded operations).  `processed_at`
holds the server-assigned write timestamp (`CURRENT_TIMESTAMP`), modelled as a
monotone counter. -/
structure StoredArticle where
  id : Nat
  url : String
  title : String
  source : String
  summary : String
  original_content : Option String
  topics : Option String
  keywords : Option String
  relevance_score : ℚ
  processed_at : Nat
  deriving Repr, DecidableEq

/-- State of the SQLite store: the rows of `articles`, the next AUTOINCREMENT
id and the CURRENT_TIMESTAMP clock. -/
structure DbState where
  rows : List StoredArticle
  nextId : Nat
  clock : Nat
  deriving Repr, DecidableEq

/-- The upsert `DatabaseManager.save_article` on an initialized connection:
`INSERT OR REPLACE INTO articles (url, ...) VALUES (...)` with `url` UNIQUE
deletes any row with the same url and inserts a fresh row (new AUTOINCREMENT
id, `processed_at = CURRENT_TIMESTAMP`).  (With no connection the method
raises `RuntimeError`, as modelled for `search_articles`.) -/
def saveArticle (db : DbState) (url title source summary : String)
    (original_content topics keywords : Option String)
    (relevance_score : ℚ) : DbState :=
  { rows := db.rows.filter (fun r => r.url != url) ++
      [{ id := db.nextId, url := url, title := title, source := source,
         summary := summary, original_content := original_content,
         topics := topics, keywords := keywords,
         relevance_score := relevance_score, processed_at := db.clock }]
    nextId := db.nextId + 1
    clock := db.clock + 1 }

/-- Query parameter record of `DatabaseManager.search_articles` with the
Python defaults. -/
structure SearchQuery where
  query : Option String := none
  sources : Option (List String) := none
  topics : Option (List String) := none
  min_relevance : Option ℚ := none
  start_date : Option Nat := none
  end_date : Option Nat := none
  limit : Int := 50
  offset : Int := 0

/-- SQL `LIKE '%pat%'` on a topics column value (SQLite LIKE is
case-insensitive on ASCII; wildcard characters inside the topic string are not
modelled since the stored topic labels contain none). -/
def likeMatch (col pat : String) : Bool := subMatch (lc pat) (lc col)

/-- The WHERE-clause filters `search_articles` appends for `sources`,
`topics`, `min_relevance`, `start_date` and `end_date`.  An empty `sources` or
`topics` list is falsy in Python, so no filter is added for it; a NULL
`topics` column never satisfies `LIKE`. -/
def passesFilters (q : SearchQuery) (a : StoredArticle) : Bool :=
  (match q.sources with
   | some l => if l.isEmpty then true else l.contains a.source
   | none => true) &&
  (match q.topics with
   | some l =>
     if l.isEmpty then true
     else match a.topics with
          | none => false
          | some ts => l.any (fun t => likeMatch ts t)
   | none => true) &&
  (match q.min_relevance with
   | some m => decide (m ≤ a.relevance_score)
   | none => true) &&
  (match q.start_date with
   | some s => decide (s ≤ a.processed_at)
   | none => true) &&
  (match q.end_date with
   | some e => decide (a.processed_at ≤ e)
   | none => true)

/-- SQL `ORDER BY relevance_score DESC, processed_at DESC` (the non-FTS
branch), as a stable sort. -/
def sortPlain (rows : List StoredArticle) : List StoredArticle :=
  List.insertionSort
    (fun a b => b.relevance_score < a.relevance_score ∨
      (b.relevance_score = a.relevance_score ∧ b.processed_at ≤ a.processed_at))
    rows

/-- SQL `ORDER BY search_rank, relevance_score DESC, processed_at DESC` (the
FTS branch), on rows paired with their FTS rank. -/
def sortFts (rows : List (ℚ × StoredArticle)) : List (ℚ × StoredArticle) :=
  List.insertionSort
    (fun a b => a.1 < b.1 ∨
      (a.1 = b.1 ∧ (b.2.relevance_score < a.2.relevance_score ∨
        (b.2.relevance_score = a.2.relevance_score ∧
          b.2.processed_at ≤ a.2.processed_at))))
    rows

/-- SQL `LIMIT ? OFFSET ?` with SQLite semantics: a negative OFFSET is
treated as 0, a negative LIMIT means no limit. -/
def applyLimitOffset (lim off : Int) (xs : List α) : List α :=
  let dropped := xs.drop off.toNat
  if lim < 0 then dropped else dropped.take lim.toNat

/-- Result dictionary built per row by `search_articles`. -/
structure SearchResult where
  id : Nat
  url : String
  title : String
  source : String
  summary : String
  topics : List String
  keywords : List String
  relevance_score : ℚ
  processed_at : Nat
  search_rank : Option ℚ
  deriving Repr, DecidableEq

/-- The split `row[i].split(',') if row[i] else []` applied to the serialized
topics/keywords column. -/
def splitCol : Option String → List String
  | none => []
  | some s => if s = "" then [] else s.splitOn ","

/-- Row-to-dictionary conversion of `search_articles`. -/
def rowToResult (rank : Option ℚ) (a : StoredArticle) : SearchResult :=
  { id := a.id, url := a.url, title := a.title, source := a.source,
    summary := a.summary, topics := splitCol a.topics,
    keywords := splitCol a.keywords, relevance_score := a.relevance_score,
    processed_at := a.processed_at, search_rank := rank }

/-- The non-FTS pipeline of `search_articles`: filter, order, paginate, build
dictionaries (`search_rank` reported as None). -/
def plainResults (db : DbState) (q : SearchQuery) : List SearchResult :=
  (applyLimitOffset q.limit q.offset
    (sortPlain (db.rows.filter (passesFilters q)))).map (rowToResult none)

/-- The FTS pipeline of `search_articles`: the INNER JOIN with
`articles_fts ... MATCH ?` keeps exactly the rows the FTS engine matches,
paired with their rank. -/
def ftsResults (fts : String → StoredArticle → Option ℚ) (s : String)
    (db : DbState) (q : SearchQuery) : List SearchResult :=
  (applyLimitOffset q.limit q.offset
    (sortFts (((db.rows.filterMap (fun a => (fts s a).map (fun r => (r, a)))).filter
      (fun p => passesFilters q p.2))))).map (fun p => rowToResult (some p.1) p.2)

/-- The query entry point `DatabaseManager.search_articles`.  `fts` is the
FTS5 engine's match/rank function (an external collaborator); `odb = none`
models an uninitialized connection, the only condition the method rejects
(`RuntimeError("Database not initialized")`).  An empty text query is falsy,
hence takes the non-FTS branch. -/
def searchArticles (fts : String → StoredArticle → Option ℚ)
    (odb : Option DbState) (q : SearchQuery) : Except String (List SearchResult) :=
  match odb with
  | none => Except.error "Database not initialized"
  | some db =>
    match q.query with
    | some s => if s = "" then Except.ok (plainResults db q)
                else Except.ok (ftsResults fts s db q)
    | none => Except.ok (plainResults db q)

/-- A trivial FTS engine (no text query is ever passed where it is used). -/
def ftsNone : String → StoredArticle → Option ℚ := fun _ _ => none

/-- Concrete stored row for the query-validation scenario. -/
def rowC4 : StoredArticle :=
  { id := 1, url := "https://example.org/a", title := "A", source := "ArXiv",
    summary := "s", original_content := none, topics := none, keywords := none,
    relevance_score := 50, processed_at := 0 }

/-- Concrete one-row database for the query-validation scenario. -/
def dbC4 : DbState := { rows := [rowC4], nextId := 2, clock := 1 }

/-- Concrete query with a negative limit. -/
def qNegLimit : SearchQuery := { limit := -1 }

/-- Fresh, empty database state. -/
def dbEmpty : DbState := { rows := [], nextId := 1, clock := 0 }

/-- Concrete timestamp parser for the ranking scenarios: two known strings,
hours 0 and 100 since the epoch; everything else fails to parse. -/
def parseStale : String → Option ℚ :=
  fun s => if s = "T0" then some 0 else if s = "T100" then some 100 else none

/-- A stale article (age 1000 h at ranking time 1000). -/
def aStale : Article :=
  { url := "u1", title := "older stale article", source := "Blog",
    relevance_score := 50, processed_at := some "T0" }

/-- A stale but more recent article (age 900 h at ranking time 1000). -/
def bStale : Article :=
  { url := "u2", title := "newer stale article", source := "Blog",
    relevance_score := 50, processed_at := some "T100" }

/-- Concrete timestamp parser with two recent timestamps (hours 800, 900). -/
def parseFresh : String → Option ℚ :=
  fun s => if s = "T900" then some 900 else if s = "T800" then some 800 else none

/-- A recent article (age 100 h at ranking time 1000). -/
def aFresh : Article :=
  { url := "u1", title := "newer fresh article", source := "Blog",
    relevance_score := 50, processed_at := some "T900" }

/-- A less recent article (age 200 h at ranking time 1000). -/
def bFresh : Article :=
  { url := "u2", title := "older fresh article", source := "Blog",
    relevance_score := 50, processed_at := some "T800" }

/-- An article from an elevated-trust source. -/
def aTrusted : Article :=
  { url := "u3", title := "trusted article", source := "ArXiv",
    relevance_score := 50, processed_at := some "P" }

/-- An otherwise identical article from a non-trusted source. -/
def bUntrusted : Article :=
  { url := "u4", title := "untrusted article", source := "Blog",
    relevance_score := 50, processed_at := some "P" }

/-- First deduplication article (spec test titles). -/
def artGpt1 : Article :=
  { url := "d1", title := "New GPT model released", source := "A",
    relevance_score := 10, processed_at := none }

/-- Near-duplicate of the first deduplication article. -/
def artGpt2 : Article :=
  { url := "d2", title := "New GPT model released today", source := "B",
    relevance_score := 90, processed_at := none }

/-- Unrelated third deduplication article. -/
def artRobot : Article :=
  { url := "d3", title := "Robotics breakthrough in 2024", source := "C",
    relevance_score := 20, processed_at := none }

/-- An article with no `processed_at` field. -/
def artNoTime : Article :=
  { url := "n1", title := "timeless", source := "ArXiv",
    relevance_score := 42, processed_at := none }

/-- An article whose `processed_at` does not parse as an ISO timestamp. -/
def artBadTime : Article :=
  { url := "n2", title := "badly timed", source := "Blog",
    relevance_score := 7, processed_at := some "not-a-timestamp" }

theorem titleScore_nonneg (l : List Char) : 0 ≤ titleScore l := by
  refine le_min ?_ (by norm_num)
  apply List.sum_nonneg
  intro x hx
  simp only [List.mem_map] at hx
  obtain ⟨k, -, rfl⟩ := hx
  exact le_min (by positivity) (by norm_num)

theorem contentScore_nonneg (l : List Char) : 0 ≤ contentScore l := by
  unfold contentScore
  dsimp only
  generalize countKw aiKeywords l = m
  generalize wordCount l = w
  split
  · refine le_min ?_ (by norm_num)
    have hd : (0 : ℚ) ≤ (m : ℚ) / (w : ℚ) :=
      div_nonneg (Nat.cast_nonneg m) (Nat.cast_nonneg w)
    positivity
  · exact le_refl 0

theorem weights_nonneg : ∀ e ∈ AI_TOPIC_KEYWORDS, (0 : ℚ) ≤ e.2.2 := by
  intro e he
  fin_cases he <;> norm_num

theorem topicScore_nonneg (l : List Char) : 0 ≤ topicScore l := by
  refine le_min ?_ (by norm_num)
  apply List.sum_nonneg
  intro x hx
  simp only [List.mem_map] at hx
  obtain ⟨e, he, rfl⟩ := hx
  split
  · exact mul_nonneg (Nat.cast_nonneg _) (weights_nonneg e he)
  · exact le_refl 0

theorem highValueScore_nonneg (l : List Char) : 0 ≤ highValueScore l :=
  le_min (by positivity) (by norm_num)

theorem prominenceScore_nonneg (l : List Char) : 0 ≤ prominenceScore l := by
  unfold prominenceScore
  split <;> norm_num

theorem researchScore_nonneg (l : List Char) : 0 ≤ researchScore l := by
  unfold researchScore
  dsimp only
  split
  · have h1 : (0 : ℚ) ≤ min ((countKw RESEARCH_KEYWORDS l : ℚ) * 2) 10 :=
      le_min (by positivity) (by norm_num)
    have h2 : (0 : ℚ) ≤
        (if containsKw l "arxiv" || containsKw l "published" then (5 : ℚ) else 0) := by
      split <;> norm_num
    linarith
  · exact le_refl 0

theorem breakthroughScore_nonneg (l : List Char) : 0 ≤ breakthroughScore l := by
  unfold breakthroughScore
  dsimp only
  split
  · exact le_min (by positivity) (by norm_num)
  · exact le_refl 0

theorem calculateRelevanceScore_nonneg (title content : String) :
    0 ≤ calculateRelevanceScore title content := by
  unfold calculateRelevanceScore
  dsimp only
  refine le_min ?_ (by norm_num)
  have h1 := titleScore_nonneg (lc title)
  have h2 := contentScore_nonneg (lcText title content)
  have h3 := topicScore_nonneg (lcText title content)
  have h4 := highValueScore_nonneg (lcText title content)
  have h5 := prominenceScore_nonneg (lc title)
  have h6 := researchScore_nonneg (lcText title content)
  have h7 := breakthroughScore_nonneg (lcText title content)
  linarith

theorem calculateRelevanceScore_le (title content : String) :
    calculateRelevanceScore title content ≤ 100 :=
  min_le_right _ _

theorem finalScore_nonneg (title content : String) : 0 ≤ finalScore title content := by
  unfold finalScore
  dsimp only
  have h0 := calculateRelevanceScore_nonneg title content
  have h1 : 0 ≤ (if isInvestmentNews title content &&
      !isResearchBreakthrough (lcText title content) then
      max 0 (calculateRelevanceScore title content - 50)
      else calculateRelevanceScore title content) := by
    split
    · exact le_max_left 0 _
    · exact h0
  split
  · exact le_min (by norm_num) (by linarith)
  · exact h1

theorem finalScore_le_100 (title content : String) : finalScore title content ≤ 100 := by
  unfold finalScore
  dsimp only
  have h0 := calculateRelevanceScore_le title content
  have h1 : (if isInvestmentNews title content &&
      !isResearchBreakthrough (lcText title content) then
      max 0 (calculateRelevanceScore title content - 50)
      else calculateRelevanceScore title content) ≤ 100 := by
    split
    · exact max_le (by norm_num) (by linarith)
    · exact h0
  split
  · exact min_le_left _ _
  · exact h1

theorem round2_nonneg {x : ℚ} (h : 0 ≤ x) : 0 ≤ round2 x := by
  unfold round2
  apply div_nonneg _ (by norm_num)
  have hfl : (0 : ℤ) ≤ ⌊x * 100 + 1 / 2⌋ := by
    apply Int.floor_nonneg.mpr
    have : (0 : ℚ) ≤ x * 100 := by positivity
    linarith
  exact_mod_cast hfl

theorem round2_le_100 {x : ℚ} (h : x ≤ 100) : round2 x ≤ 100 := by
  unfold round2
  rw [div_le_iff₀ (by norm_num : (0 : ℚ) < 100)]
  have hlt : ⌊x * 100 + 1 / 2⌋ < (10001 : ℤ) := by
    rw [Int.floor_lt]
    push_cast
    linarith
  have hle : ⌊x * 100 + 1 / 2⌋ ≤ (10000 : ℤ) := by omega
  calc ((⌊x * 100 + 1 / 2⌋ : ℤ) : ℚ) ≤ (10000 : ℚ) := by exact_mod_cast hle
    _ = 100 * 100 := by norm_num

/-- C1: for every pair of string inputs (title, body), the `relevance_score`
field returned by the classifier `analyzeArticle` satisfies
`0 <= relevance_score <= 100`: every scoring term is non-negative, the base
sum is capped at 100, and the post-gate penalty (floored at 0) and boost
(ceiled at 100) preserve the bounds. -/
theorem C1_relevance_score_bounds (title content : String) :
    0 ≤ (analyzeArticle title content).relevance_score ∧
    (analyzeArticle title content).relevance_score ≤ 100 :=
  ⟨round2_nonneg (finalScore_nonneg title content),
   round2_le_100 (finalScore_le_100 title content)⟩

/-- C2: for every pair of string inputs, the classifier's `is_ai_related`
flag is true iff (the post-adjustment relevance score is at least 30 or the
topics list is non-empty) and not (investment news and not a research
breakthrough). -/
theorem C2_is_ai_related_iff (title content : String) :
    (analyzeArticle title content).is_ai_related = true ↔
    ((30 ≤ finalScore title content ∨ (analyzeArticle title content).topics ≠ []) ∧
     ¬((analyzeArticle title content).is_investment_news = true ∧
       (analyzeArticle title content).is_research_breakthrough = false)) := by
  have hai : (analyzeArticle title content).is_ai_related =
      ((decide (30 ≤ finalScore title content) ||
        !(identifyTopics (lcText title content)).isEmpty) &&
       !(isInvestmentNews title content &&
         !isResearchBreakthrough (lcText title content))) := rfl
  have ht : (analyzeArticle title content).topics =
      identifyTopics (lcText title content) := rfl
  have hi : (analyzeArticle title content).is_investment_news =
      isInvestmentNews title content := rfl
  have hb : (analyzeArticle title content).is_research_breakthrough =
      isResearchBreakthrough (lcText title content) := rfl
  rw [hai, ht, hi, hb]
  cases hI : isInvestmentNews title content <;>
    cases hB : isResearchBreakthrough (lcText title content) <;>
      simp [List.isEmpty_iff]

/-- C3: for every pair of string inputs, with `base` the pre-gate score, the
post-gate score is `max(0, base - 50)` when flagged as investment news and
not a research breakthrough; it is `min(100, base + 15)` whenever flagged as
a research breakthrough (penalty before boost, each applied at most once); it
is `base` when neither flag holds; and the returned `relevance_score` field
is this post-gate score rounded to two decimals. -/
theorem C3_gate_adjustments (title content : String) :
    ((analyzeArticle title content).is_investment_news = true ∧
      (analyzeArticle title content).is_research_breakthrough = false →
      finalScore title content =
        max 0 (calculateRelevanceScore title content - 50)) ∧
    ((analyzeArticle title content).is_research_breakthrough = true →
      finalScore title content =
        min 100 (calculateRelevanceScore title content + 15)) ∧
    ((analyzeArticle title content).is_investment_news = false ∧
      (analyzeArticle title content).is_research_breakthrough = false →
      finalScore title content = calculateRelevanceScore title content) ∧
    (analyzeArticle title content).relevance_score =
      round2 (finalScore title content) := by
  have hi : (analyzeArticle title content).is_investment_news =
      isInvestmentNews title content := rfl
  have hb : (analyzeArticle title content).is_research_breakthrough =
      isResearchBreakthrough (lcText title content) := rfl
  refine ⟨?_, ?_, ?_, rfl⟩
  · rintro ⟨h1, h2⟩
    rw [hi] at h1
    rw [hb] at h2
    unfold finalScore
    rw [h1, h2]
    simp
  · intro h
    rw [hb] at h
    unfold finalScore
    rw [h]
    simp
  · rintro ⟨h1, h2⟩
    rw [hi] at h1
    rw [hb] at h2
    unfold finalScore
    rw [h1, h2]
    simp

/-- Witness for C3 at a concrete investment-news article: the gate flags hold
and the post-gate score is the penalized base score. -/
theorem C3_gate_adjustments_witness :
    (analyzeArticle "Startup funding investment news" "").is_investment_news = true ∧
    (analyzeArticle "Startup funding investment news" "").is_research_breakthrough = false ∧
    finalScore "Startup funding investment news" "" =
      max 0 (calculateRelevanceScore "Startup funding investment news" "" - 50) :=
  ⟨by decide, by decide,
   (C3_gate_adjustments "Startup funding investment news" "").1 ⟨by decide, by decide⟩⟩

theorem topicNames_nodup : (AI_TOPIC_KEYWORDS.map (fun e => e.1)).Nodup := by decide

/-- C8: for every pair of string inputs and every category of the lexicon,
the category's name appears in the classifier's topics list iff at least 2 of
that category's keywords occur as substrings of the lower-cased title+body
text (so one coincidental match never yields the topic). -/
theorem C8_topic_iff_two_matches (title content : String) (name : String)
    (kws : List String) (w : ℚ) (h : (name, kws, w) ∈ AI_TOPIC_KEYWORDS) :
    name ∈ (analyzeArticle title content).topics ↔
      2 ≤ countKw kws (lcText title content) := by
  have htop : (analyzeArticle title content).topics =
      identifyTopics (lcText title content) := rfl
  rw [htop]
  unfold identifyTopics
  constructor
  · intro hmem
    simp only [List.mem_map, List.mem_filter] at hmem
    obtain ⟨e, ⟨heMem, heCount⟩, heName⟩ := hmem
    have he : e = (name, kws, w) :=
      List.inj_on_of_nodup_map topicNames_nodup heMem h heName
    rw [he] at heCount
    simpa using heCount
  · intro hcount
    apply List.mem_map.mpr
    refine ⟨(name, kws, w), List.mem_filter.mpr ⟨h, by simpa using hcount⟩, rfl⟩

/-- Witness for C8 at the category "Computer Vision": a text with two of its
keywords receives the topic, a text with exactly one does not. -/
theorem C8_topic_iff_two_matches_witness :
    ("Computer Vision", cvKeywords, (1.3 : ℚ)) ∈ AI_TOPIC_KEYWORDS ∧
    ("Computer Vision" ∈ (analyzeArticle "yolo and rcnn results" "").topics ↔
      2 ≤ countKw cvKeywords (lcText "yolo and rcnn results" "")) ∧
    "Computer Vision" ∈ (analyzeArticle "yolo and rcnn results" "").topics ∧
    "Computer Vision" ∉ (analyzeArticle "yolo results" "").topics :=
  ⟨by with_unfolding_all decide,
   C8_topic_iff_two_matches "yolo and rcnn results" "" "Computer Vision"
     cvKeywords 1.3 (by with_unfolding_all decide),
   by decide, by decide⟩

/-- C9: for the empty input list the deduplicator returns the empty list (and
in particular does not fail), for every threshold value. -/
theorem C9_empty_dedupe (threshold : ℚ) : removeDuplicates [] threshold = [] := rfl

theorem dedupGo_spec (θ : ℚ) (kept : List Article) (rest : List Article) :
    ∃ s, dedupGo θ kept rest = kept ++ s ∧ s.Sublist rest := by
  induction rest generalizing kept with
  | nil => exact ⟨[], by simp [dedupGo], List.Sublist.refl []⟩
  | cons x xs ih =>
    cases hc : kept.any (fun u => isDuplicate x.title u.title θ) with
    | true =>
      obtain ⟨s, hs1, hs2⟩ := ih kept
      exact ⟨s, by simp [dedupGo, hc, hs1], hs2.cons x⟩
    | false =>
      obtain ⟨s, hs1, hs2⟩ := ih (kept ++ [x])
      refine ⟨x :: s, ?_, hs2.cons₂ x⟩
      simp [dedupGo, hc, hs1]

theorem dedupGo_append (θ : ℚ) (kept rest : List Article) (y : Article) :
    dedupGo θ kept (rest ++ [y]) =
      if (dedupGo θ kept rest).any (fun u => isDuplicate y.title u.title θ)
      then dedupGo θ kept rest
      else dedupGo θ kept rest ++ [y] := by
  induction rest generalizing kept with
  | nil => simp [dedupGo]
  | cons x xs ih =>
    cases hc : kept.any (fun u => isDuplicate x.title u.title θ) with
    | true => simp [dedupGo, hc, ih]
    | false => simp [dedupGo, hc, ih]

/-- C6: the deduplicator returns a stable sub-sequence of its input (original
relative order preserved), in which the first input document is always kept;
and extending the input batch by one more document keeps that document iff
its title's Jaccard similarity is strictly below the threshold against every
previously kept document (first-seen wins, regardless of scores). -/
theorem C6_dedupe_greedy (articles : List Article) (θ : ℚ) :
    (removeDuplicates articles θ).Sublist articles ∧
    (∀ a rest, articles = a :: rest →
      (removeDuplicates articles θ).head? = some a) ∧
    (∀ y, articles ≠ [] →
      removeDuplicates (articles ++ [y]) θ =
        if ∀ u ∈ removeDuplicates articles θ,
            calculateSimilarity y.title u.title < θ
        then removeDuplicates articles θ ++ [y]
        else removeDuplicates articles θ) := by
  refine ⟨?_, ?_, ?_⟩
  · cases articles with
    | nil => simp [removeDuplicates]
    | cons a rest =>
      obtain ⟨s, hs1, hs2⟩ := dedupGo_spec θ [a] rest
      have : removeDuplicates (a :: rest) θ = a :: s := by
        simp [removeDuplicates, hs1]
      rw [this]
      exact hs2.cons₂ a
  · intro a rest h
    subst h
    obtain ⟨s, hs1, -⟩ := dedupGo_spec θ [a] rest
    simp [removeDuplicates, hs1]
  · intro y hne
    cases articles with
    | nil => exact absurd rfl hne
    | cons a rest =>
      have hL : removeDuplicates ((a :: rest) ++ [y]) θ =
          dedupGo θ [a] (rest ++ [y]) := rfl
      have hR : removeDuplicates (a :: rest) θ = dedupGo θ [a] rest := rfl
      rw [hL, hR, dedupGo_append]
      have hiff : ((dedupGo θ [a] rest).any
            (fun u => isDuplicate y.title u.title θ) = true) ↔
          ¬(∀ u ∈ dedupGo θ [a] rest,
              calculateSimilarity y.title u.title < θ) := by
        simp only [List.any_eq_true, isDuplicate, decide_eq_true_eq]
        constructor
        · rintro ⟨u, hu, hle⟩ hall
          exact absurd (hall u hu) (not_lt.mpr hle)
        · intro h
          by_contra hno
          push_neg at hno
          exact h hno
      by_cases hall : ∀ u ∈ dedupGo θ [a] rest,
          calculateSimilarity y.title u.title < θ
      · rw [if_neg (fun hc => (hiff.mp hc) hall), if_pos hall]
      · rw [if_pos (hiff.mpr hall), if_neg hall]

/-- Witness for C6 at the spec's deduplication scenario (threshold 0.7): the
near-duplicate second title is dropped and the unrelated third title is
appended to the kept list. -/
theorem C6_dedupe_greedy_witness :
    (removeDuplicates [artGpt1, artGpt2, artRobot] (7 / 10)).Sublist
      [artGpt1, artGpt2, artRobot] ∧
    (removeDuplicates [artGpt1, artGpt2, artRobot] (7 / 10)).head? = some artGpt1 ∧
    removeDuplicates ([artGpt1, artGpt2] ++ [artRobot]) (7 / 10) =
      removeDuplicates [artGpt1, artGpt2] (7 / 10) ++ [artRobot] ∧
    removeDuplicates [artGpt1, artGpt2] (7 / 10) = [artGpt1] :=
  ⟨(C6_dedupe_greedy [artGpt1, artGpt2, artRobot] (7 / 10)).1,
   (C6_dedupe_greedy [artGpt1, artGpt2, artRobot] (7 / 10)).2.1 artGpt1
     [artGpt2, artRobot] rfl,
   by
     rw [(C6_dedupe_greedy [artGpt1, artGpt2] (7 / 10)).2.2 artRobot (by decide)]
     rw [if_pos (by with_unfolding_all decide)],
   by with_unfolding_all decide⟩

theorem rankByQuality_perm (parse : String → Option ℚ) (now : ℚ)
    (articles : List Article) : (rankByQuality parse now articles).Perm articles :=
  List.perm_insertionSort _ _

theorem rank_pair_of_gt (parse : String → Option ℚ) (now : ℚ) (a b : Article)
    (h : qualityScore parse now b < qualityScore parse now a) :
    rankByQuality parse now [a, b] = [a, b] ∧
    rankByQuality parse now [b, a] = [a, b] := by
  constructor
  · show List.insertionSort _ [a, b] = [a, b]
    simp only [List.insertionSort, List.orderedInsert]
    rw [if_pos (le_of_lt h)]
  · show List.insertionSort _ [b, a] = [a, b]
    simp only [List.insertionSort, List.orderedInsert]
    rw [if_neg (not_le.mpr h)]

theorem recencyBonus_parsed (parse : String → Option ℚ) (now : ℚ) (s : String)
    (t : ℚ) (hne : s ≠ "") (hp : parse s = some t) :
    recencyBonus parse now (some s) = max 0 (20 - (now - t) / 24 * 2) := by
  show (if s = "" then (0 : ℚ)
    else match parse s with
         | none => 0
         | some t => max 0 (20 - (now - t) / 24 * 2)) = _
  rw [if_neg hne, hp]

theorem recencyBonus_degenerate (parse : String → Option ℚ) (now : ℚ)
    (p : Option String) (h : p = none ∨ ∃ s, p = some s ∧ parse s = none) :
    recencyBonus parse now p = 0 := by
  rcases h with h | ⟨s, hs, hp⟩
  · rw [h]
    rfl
  · rw [hs]
    show (if s = "" then (0 : ℚ)
      else match parse s with
           | none => 0
           | some t => max 0 (20 - (now - t) / 24 * 2)) = 0
    by_cases he : s = ""
    · rw [if_pos he]
    · rw [if_neg he, hp]

/-- C10: a record whose `processed_at` is absent or fails to parse as a
timestamp silently receives a recency bonus of 0 — its quality score is its
relevance plus at most the trust bonus — and it is still present in the
ranked output (no exception propagates: ranking is total). -/
theorem C10_degenerate_timestamp_ranked (parse : String → Option ℚ) (now : ℚ)
    (articles : List Article) (a : Article) (hmem : a ∈ articles)
    (h : a.processed_at = none ∨ ∃ s, a.processed_at = some s ∧ parse s = none) :
    a ∈ rankByQuality parse now articles ∧
    qualityScore parse now a =
      a.relevance_score + (if a.source ∈ trustedSources then 10 else 0) := by
  constructor
  · exact ((rankByQuality_perm parse now articles).mem_iff).mpr hmem
  · unfold qualityScore
    rw [recencyBonus_degenerate parse now a.processed_at h, add_zero]

/-- Witness for C10: an article with no `processed_at` and an article with an
unparseable `processed_at` are both still ranked, with recency bonus 0. -/
theorem C10_degenerate_timestamp_ranked_witness :
    (artNoTime ∈ rankByQuality parseStale 1000 [artNoTime, artBadTime] ∧
      qualityScore parseStale 1000 artNoTime = artNoTime.relevance_score +
        (if artNoTime.source ∈ trustedSources then 10 else 0)) ∧
    (artBadTime ∈ rankByQuality parseStale 1000 [artNoTime, artBadTime] ∧
      qualityScore parseStale 1000 artBadTime = artBadTime.relevance_score +
        (if artBadTime.source ∈ trustedSources then 10 else 0)) :=
  ⟨C10_degenerate_timestamp_ranked parseStale 1000 [artNoTime, artBadTime]
      artNoTime (by decide) (Or.inl rfl),
   C10_degenerate_timestamp_ranked parseStale 1000 [artNoTime, artBadTime]
      artBadTime (by decide) (Or.inr ⟨"not-a-timestamp", rfl, rfl⟩)⟩

/-- Counterexample to C7's recency consequence as stated: two records equal
except for `processed_at` (both parseable, the more recent being `bStale`),
but both at least 240 hours old at ranking time 1000 — both recency bonuses
floor at 0, the quality scores tie, and the stable sort keeps input order, so
the more recent record does NOT rank first. -/
theorem C7_stale_tie_counterexample :
    aStale.relevance_score = bStale.relevance_score ∧
    aStale.source = bStale.source ∧
    aStale.processed_at = some "T0" ∧
    bStale.processed_at = some "T100" ∧
    parseStale "T0" = some 0 ∧
    parseStale "T100" = some 100 ∧
    rankByQuality parseStale 1000 [aStale, bStale] = [aStale, bStale] ∧
    (rankByQuality parseStale 1000 [aStale, bStale]).head? ≠ some bStale := by
  refine ⟨rfl, rfl, rfl, rfl, rfl, rfl, ?_, ?_⟩
  · with_unfolding_all decide
  · with_unfolding_all decide

/-- C7 (amended): the ranker is a stable sort of its input, descending in the
derived quality score (relevance plus recency bonus plus trust bonus): the
output is a permutation of the input, sorted so that higher quality scores
come first; of two records equal except for `processed_at` the more recent
ranks first in either input order, provided the more recent one is less than
240 hours old at ranking time (when both are at least 240 hours old, both
recency bonuses are 0 and input order is preserved); and of two records equal
except for source trust, the trusted one ranks first in either input order. -/
theorem C7_rank_by_quality (parse : String → Option ℚ) (now : ℚ) :
    (∀ articles : List Article,
      (rankByQuality parse now articles).Perm articles) ∧
    (∀ articles : List Article,
      List.Sorted
        (fun a b => qualityScore parse now b ≤ qualityScore parse now a)
        (rankByQuality parse now articles)) ∧
    (∀ (a b : Article) (sa sb : String) (ta tb : ℚ),
      a.relevance_score = b.relevance_score → a.source = b.source →
      a.processed_at = some sa → b.processed_at = some sb →
      sa ≠ "" → sb ≠ "" → parse sa = some ta → parse sb = some tb →
      tb < ta → now - ta < 240 →
      rankByQuality parse now [a, b] = [a, b] ∧
      rankByQuality parse now [b, a] = [a, b]) ∧
    (∀ a b : Article,
      a.relevance_score = b.relevance_score →
      a.processed_at = b.processed_at →
      a.source ∈ trustedSources → b.source ∉ trustedSources →
      rankByQuality parse now [a, b] = [a, b] ∧
      rankByQuality parse now [b, a] = [a, b]) := by
  refine ⟨?_, ?_, ?_, ?_⟩
  · exact fun articles => rankByQuality_perm parse now articles
  · intro articles
    haveI : IsTotal Article
        (fun a b => qualityScore parse now b ≤ qualityScore parse now a) :=
      ⟨fun a b => le_total (qualityScore parse now b) (qualityScore parse now a)⟩
    haveI : IsTrans Article
        (fun a b => qualityScore parse now b ≤ qualityScore parse now a) :=
      ⟨fun _ _ _ h1 h2 => le_trans h2 h1⟩
    exact List.sorted_insertionSort _ _
  · intro a b sa sb ta tb hrel hsrc hpa hpb hna hnb hta htb htlt hyoung
    apply rank_pair_of_gt
    have hba : recencyBonus parse now a.processed_at =
        max 0 (20 - (now - ta) / 24 * 2) := by
      rw [hpa]
      exact recencyBonus_parsed parse now sa ta hna hta
    have hbb : recencyBonus parse now b.processed_at =
        max 0 (20 - (now - tb) / 24 * 2) := by
      rw [hpb]
      exact recencyBonus_parsed parse now sb tb hnb htb
    have hpos : (0 : ℚ) < 20 - (now - ta) / 24 * 2 := by linarith
    have hlt : 20 - (now - tb) / 24 * 2 < 20 - (now - ta) / 24 * 2 := by linarith
    have hmax : max (0 : ℚ) (20 - (now - tb) / 24 * 2) <
        max 0 (20 - (now - ta) / 24 * 2) := by
      rw [max_eq_right hpos.le]
      exact max_lt hpos hlt
    unfold qualityScore
    rw [hba, hbb, hrel, hsrc]
    linarith
  · intro a b hrel hproc htr hntr
    apply rank_pair_of_gt
    unfold qualityScore
    rw [hrel, hproc, if_pos htr, if_neg hntr]
    linarith

/-- Witness for C7: a fresh pair (more recent record first even when listed
second) and a trust pair (trusted record first in either order). -/
theorem C7_rank_by_quality_witness :
    rankByQuality parseFresh 1000 [bFresh, aFresh] = [aFresh, bFresh] ∧
    rankByQuality parseFresh 1000 [aTrusted, bUntrusted] =
      [aTrusted, bUntrusted] ∧
    rankByQuality parseFresh 1000 [bUntrusted, aTrusted] =
      [aTrusted, bUntrusted] := by
  have hfresh := (C7_rank_by_quality parseFresh 1000).2.2.1 aFresh bFresh
    "T900" "T800" 900 800 rfl rfl rfl rfl (by decide) (by decide) rfl rfl
    (by with_unfolding_all decide) (by with_unfolding_all decide)
  have htrust := (C7_rank_by_quality parseFresh 1000).2.2.2 aTrusted bUntrusted
    rfl rfl (by decide) (by decide)
  exact ⟨hfresh.2, htrust.1, htrust.2⟩

/-- Counterexample to C4 as stated: a query with a negative limit is not
rejected — `search_articles` runs it against the store and returns the stored
row (SQLite treats the negative LIMIT as "no limit"). -/
theorem C4_negative_limit_counterexample :
    qNegLimit.limit < 0 ∧
    searchArticles ftsNone (some dbC4) qNegLimit =
      Except.ok [rowToResult none rowC4] := by
  constructor
  · decide
  · rfl

/-- C4 (amended): `search_articles` performs no query-shape validation at
all: on an initialized store every query — including one with a negative
limit or offset — succeeds; the pagination values are forwarded to the SQL
layer, where a negative LIMIT means "no limit" and a negative OFFSET skips
nothing. -/
theorem C4_no_query_shape_rejection (fts : String → StoredArticle → Option ℚ)
    (db : DbState) (q : SearchQuery) :
    ∃ results, searchArticles fts (some db) q = Except.ok results := by
  cases hq : q.query with
  | none =>
    refine ⟨plainResults db q, ?_⟩
    unfold searchArticles
    rw [hq]
  | some s =>
    by_cases hs : s = ""
    · refine ⟨plainResults db q, ?_⟩
      unfold searchArticles
      rw [hq]
      dsimp only
      rw [if_pos hs]
    · refine ⟨ftsResults fts s db q, ?_⟩
      unfold searchArticles
      rw [hq]
      dsimp only
      rw [if_neg hs]

theorem countP_append_eq_one {α : Type} (l1 l2 : List α) (p : α → Bool)
    (h1 : l1.countP p = 0) (h2 : l2.countP p = 1) :
    (l1 ++ l2).countP p = 1 := by
  rw [List.countP_append, h1, h2]

theorem plainResults_countP_eq (db : DbState) (q : SearchQuery)
    (p : SearchResult → Bool) (hoff : q.offset = 0) (hnn : 0 ≤ q.limit)
    (hlen : (db.rows.filter (passesFilters q)).length ≤ q.limit.toNat) :
    (plainResults db q).countP p =
      db.rows.countP (fun r => p (rowToResult none r) && passesFilters q r) := by
  unfold plainResults applyLimitOffset sortPlain
  rw [hoff]
  dsimp only
  rw [if_neg (not_lt.mpr hnn)]
  rw [show ((0 : Int)).toNat = 0 from rfl, List.drop_zero]
  have hlensort :
      (List.insertionSort
        (fun a b : StoredArticle => b.relevance_score < a.relevance_score ∨
          (b.relevance_score = a.relevance_score ∧
            b.processed_at ≤ a.processed_at))
        (db.rows.filter (passesFilters q))).length ≤ q.limit.toNat := by
    rw [(List.perm_insertionSort _ _).length_eq]
    exact hlen
  rw [List.take_of_length_le hlensort]
  rw [List.countP_map]
  rw [(List.perm_insertionSort _ _).countP_eq]
  rw [List.countP_filter]
  rfl

theorem mem_plainResults (db : DbState) (q : SearchQuery) (r : SearchResult)
    (h : r ∈ plainResults db q) :
    ∃ row, row ∈ db.rows ∧ passesFilters q row = true ∧
      r = rowToResult none row := by
  unfold plainResults at h
  obtain ⟨row, hrow, rfl⟩ := List.mem_map.mp h
  have h2 : row ∈ sortPlain (db.rows.filter (passesFilters q)) := by
    unfold applyLimitOffset at hrow
    dsimp only at hrow
    split at hrow
    · exact (List.drop_sublist _ _).subset hrow
    · exact ((List.take_sublist _ _).trans (List.drop_sublist _ _)).subset hrow
  have h3 : row ∈ db.rows.filter (passesFilters q) := by
    unfold sortPlain at h2
    exact ((List.perm_insertionSort _ _).mem_iff).mp h2
  rcases List.mem_filter.mp h3 with ⟨h4, h5⟩
  exact ⟨row, h4, h5, rfl⟩

theorem passes_sources_only (src : String) (lim : Nat) (r : StoredArticle)
    (h : r.source = src) :
    passesFilters { sources := some [src], limit := (lim : Int) } r = true := by
  unfold passesFilters
  simp [h]

theorem save_then_search (dbPrev : DbState) (u t src sm : String)
    (oc tp kw : Option String) (rel : ℚ) (lim : Nat)
    (fts : String → StoredArticle → Option ℚ)
    (hlim : (saveArticle dbPrev u t src sm oc tp kw rel).rows.length ≤ lim) :
    ∃ rs,
      searchArticles fts (some (saveArticle dbPrev u t src sm oc tp kw rel))
        { sources := some [src], limit := (lim : Int) } = Except.ok rs ∧
      rs.countP (fun r => r.url == u) = 1 ∧
      ∀ r ∈ rs, r.url = u → r.title = t := by
  have hrows : (saveArticle dbPrev u t src sm oc tp kw rel).rows =
      dbPrev.rows.filter (fun r => r.url != u) ++
        [{ id := dbPrev.nextId, url := u, title := t, source := src,
           summary := sm, original_content := oc, topics := tp,
           keywords := kw, relevance_score := rel,
           processed_at := dbPrev.clock }] := rfl
  refine ⟨plainResults (saveArticle dbPrev u t src sm oc tp kw rel)
    { sources := some [src], limit := (lim : Int) }, rfl, ?_, ?_⟩
  · rw [plainResults_countP_eq _ _ _ rfl (Int.natCast_nonneg lim) ?hlen]
    case hlen =>
      calc ((saveArticle dbPrev u t src sm oc tp kw rel).rows.filter
              (passesFilters { sources := some [src], limit := (lim : Int) })).length
          ≤ (saveArticle dbPrev u t src sm oc tp kw rel).rows.length :=
            List.length_filter_le _ _
        _ ≤ lim := hlim
        _ = ((lim : Int)).toNat := (Int.toNat_natCast lim).symm
    rw [hrows]
    apply countP_append_eq_one
    · apply List.countP_eq_zero.mpr
      intro r hr
      rcases List.mem_filter.mp hr with ⟨-, hne⟩
      intro hPr
      rw [Bool.and_eq_true] at hPr
      have hru : (rowToResult none r).url = u := beq_iff_eq.mp hPr.1
      exact (bne_iff_ne.mp hne) hru
    · have hp : passesFilters { sources := some [src], limit := (lim : Int) }
          { id := dbPrev.nextId, url := u, title := t, source := src,
            summary := sm, original_content := oc, topics := tp,
            keywords := kw, relevance_score := rel,
            processed_at := dbPrev.clock } = true :=
        passes_sources_only src lim _ rfl
      simp [List.countP_cons, rowToResult, hp]
  · intro r hr hurl
    obtain ⟨row, hrowmem, hpass, hreq⟩ := mem_plainResults _ _ r hr
    rw [hrows] at hrowmem
    rcases List.mem_append.mp hrowmem with hL | hR
    · exfalso
      rcases List.mem_filter.mp hL with ⟨-, hne⟩
      rw [bne_iff_ne] at hne
      apply hne
      rw [hreq] at hurl
      exact hurl
    · have hrowEq : row =
          { id := dbPrev.nextId, url := u, title := t, source := src,
            summary := sm, original_content := oc, topics := tp,
            keywords := kw, relevance_score := rel,
            processed_at := dbPrev.clock } := by simpa using hR
      rw [hreq, hrowEq]
      rfl

/-- C5: round-trip through the store: after `save_article` with URL `u`, a
query filtered by `sources=[source]` (with a limit large enough not to
truncate) returns a record with URL `u` exactly once; after a second upsert
with the same URL but a different title, the query still returns exactly one
record for `u`, and it carries the new title — the prior row was replaced,
not duplicated. -/
theorem C5_upsert_roundtrip (db : DbState) (u t1 t2 src sum1 sum2 : String)
    (oc tp kw : Option String) (r1 r2 : ℚ) (lim : Nat)
    (fts : String → StoredArticle → Option ℚ)
    (hlim1 : (saveArticle db u t1 src sum1 oc tp kw r1).rows.length ≤ lim)
    (hlim2 : (saveArticle (saveArticle db u t1 src sum1 oc tp kw r1)
      u t2 src sum2 oc tp kw r2).rows.length ≤ lim) :
    (∃ rs1,
      searchArticles fts (some (saveArticle db u t1 src sum1 oc tp kw r1))
        { sources := some [src], limit := (lim : Int) } = Except.ok rs1 ∧
      rs1.countP (fun r => r.url == u) = 1 ∧
      ∀ r ∈ rs1, r.url = u → r.title = t1) ∧
    (∃ rs2,
      searchArticles fts
        (some (saveArticle (saveArticle db u t1 src sum1 oc tp kw r1)
          u t2 src sum2 oc tp kw r2))
        { sources := some [src], limit := (lim : Int) } = Except.ok rs2 ∧
      rs2.countP (fun r => r.url == u) = 1 ∧
      ∀ r ∈ rs2, r.url = u → r.title = t2) :=
  ⟨save_then_search db u t1 src sum1 oc tp kw r1 lim fts hlim1,
   save_then_search (saveArticle db u t1 src sum1 oc tp kw r1)
     u t2 src sum2 oc tp kw r2 lim fts hlim2⟩

/-- Witness for C5: on a fresh store, upserting URL "https://x/1" twice (title
"Alpha", then "Beta") and querying by the source yields exactly one record for
that URL each time, carrying the latest title. -/
theorem C5_upsert_roundtrip_witness :
    (∃ rs1,
      searchArticles ftsNone
        (some (saveArticle dbEmpty "https://x/1" "Alpha" "S" "sum"
          none none none 0))
        { sources := some ["S"], limit := ((50 : Nat) : Int) } =
          Except.ok rs1 ∧
      rs1.countP (fun r => r.url == "https://x/1") = 1 ∧
      ∀ r ∈ rs1, r.url = "https://x/1" → r.title = "Alpha") ∧
    (∃ rs2,
      searchArticles ftsNone
        (some (saveArticle
          (saveArticle dbEmpty "https://x/1" "Alpha" "S" "sum" none none none 0)
          "https://x/1" "Beta" "S" "sum2" none none none 0))
        { sources := some ["S"], limit := ((50 : Nat) : Int) } =
          Except.ok rs2 ∧
      rs2.countP (fun r => r.url == "https://x/1") = 1 ∧
      ∀ r ∈ rs2, r.url = "https://x/1" → r.title = "Beta") :=
  C5_upsert_roundtrip dbEmpty "https://x/1" "Alpha" "Beta" "S" "sum" "sum2"
    none none none 0 0 50 ftsNone (by decide) (by decide)
